import Mathlib

/-
  Verification development for the balatromcp server core.

  The definitions below are a shallow embedding of the Python sources:
    - src/server/schemas.py        (data model)
    - src/server/file_io.py        (sequence-numbered file reads, path validation)
    - src/server/state_manager.py  (state cache, change flag, StateValidator)
    - src/server/action_handler.py (action validation gate, execute_action)
  Python machine-level details that the embedded code paths do not touch
  (JSON text, the filesystem, wall-clock time, logging transport) are
  represented abstractly: a file is an optional parsed envelope, time is a
  natural number, and logging is an explicit list of emitted entries.
-/

namespace BalatroMCP

/-! ## Data model (src/server/schemas.py) -/

/-- GamePhase enum from schemas.py. -/
inductive GamePhase where
  | hand_selection
  | shop
  | blind_selection
  | scoring
deriving DecidableEq, Repr

/-- Card model from schemas.py (enhancement, edition and seal kept as strings;
they never influence the embedded code paths). -/
structure Card where
  id : String
  rank : String
  suit : String
  enhancement : String := "none"
  edition : String := "none"
  «seal» : String := "none"
deriving DecidableEq, Repr

/-- Joker model from schemas.py (the untyped properties dict is omitted; no
embedded code path reads it). -/
structure Joker where
  id : String
  name : String
  position : Int
deriving DecidableEq, Repr

/-- Consumable model from schemas.py. -/
structure Consumable where
  id : String
  name : String
  card_type : String
deriving DecidableEq, Repr

/-- Blind model from schemas.py. -/
structure Blind where
  name : String
  blind_type : String
  requirement : Int
  reward : Int
deriving DecidableEq, Repr

/-- ShopItem model from schemas.py. -/
structure ShopItem where
  index : Int
  item_type : String
  name : String
  cost : Int
deriving DecidableEq, Repr

/-- GameState model from schemas.py. -/
structure GameState where
  session_id : String
  current_phase : GamePhase
  ante : Int
  money : Int
  hands_remaining : Int
  discards_remaining : Int
  hand_cards : List Card
  jokers : List Joker
  consumables : List Consumable
  current_blind : Option Blind
  shop_contents : List ShopItem
  available_actions : List String
  post_hand_joker_reorder_available : Bool := false
deriving DecidableEq, Repr

/-- ActionResult model from schemas.py. -/
structure ActionResult where
  success : Bool
  error_message : Option String := none
  new_state : Option GameState := none
deriving DecidableEq, Repr

/-- MessageType enum from schemas.py. -/
inductive MessageType where
  | game_state
  | action_command
  | action_result
deriving DecidableEq, Repr

/-- String value of each MessageType, as in the Python str-enum. -/
def MessageType.value : MessageType → String
  | .game_state => "game_state"
  | .action_command => "action_command"
  | .action_result => "action_result"

/-! ## File IO reads (src/server/file_io.py)

A communication file is modelled as an optional parsed envelope: `none`
stands for a missing file or one whose JSON fails to parse (both make the
Python code return early without touching the sequence map).  The envelope
carries the fields the read paths inspect: `sequence_id` is the value of
`data.get("sequence_id", 0)`, `message_type` the raw string of
`data.get("message_type")`, and `data` the payload, where `none` covers an
absent, falsy or unparseable `data` field (all of which make the Python
code return `None` via the same guarded paths). -/

/-- Envelope shape shared by the communication files. -/
structure Envelope (α : Type) where
  sequence_id : Int
  message_type : String
  data : Option α
deriving DecidableEq, Repr

/-- Embedding of BalatroFileIO.read_game_state.  Input: the parsed content of
game_state.json (or `none`) and the current value of
`_last_read_sequence.get("game_state", 0)`.  Output: the returned snapshot (or
`none`) together with the new last-read sequence value.  The branch order
mirrors the source: the sequence check and the recording of the new sequence
id happen before the message-type check and before the payload parse. -/
def read_game_state (file : Option (Envelope GameState)) (lastRead : Int) :
    Option GameState × Int :=
  match file with
  | none => (none, lastRead)
  | some env =>
    if env.sequence_id ≤ lastRead then
      (none, lastRead)
    else
      let lastRead2 := env.sequence_id
      if env.message_type ≠ MessageType.game_state.value then
        (none, lastRead2)
      else
        match env.data with
        | none => (none, lastRead2)
        | some gs => (some gs, lastRead2)

/-- Embedding of BalatroFileIO.read_action_result.  Same discipline as
`read_game_state` with the action_result kind; on success the file is deleted,
so the output also carries the remaining file content. -/
def read_action_result (file : Option (Envelope ActionResult)) (lastRead : Int) :
    Option ActionResult × Int × Option (Envelope ActionResult) :=
  match file with
  | none => (none, lastRead, none)
  | some env =>
    if env.sequence_id ≤ lastRead then
      (none, lastRead, some env)
    else
      let lastRead2 := env.sequence_id
      if env.message_type ≠ MessageType.action_result.value then
        (none, lastRead2, some env)
      else
        match env.data with
        | none => (none, lastRead2, some env)
        | some r => (some r, lastRead2, none)

/-! ## State manager (src/server/state_manager.py)

The mutable fields of BalatroStateManager become an explicit record; the
wall clock is passed in as a natural number and logging becomes an explicit
list of emitted entries, so that what the source logs (and at which level)
is part of the embedded behaviour. -/

/-- Log levels of the logging calls appearing in the embedded code paths. -/
inductive LogLevel where
  | debug
  | info
  | warning
  | error
deriving DecidableEq, Repr

/-- Log entry: a level and a message. -/
structure LogEntry where
  level : LogLevel
  message : String
deriving DecidableEq, Repr

/-- Mutable state of BalatroStateManager: the cached snapshot, the last
update time and the one-shot changed flag. -/
structure ManagerState where
  current_state : Option GameState
  last_update_time : Option Nat
  state_changed : Bool
deriving DecidableEq, Repr

/-- Embedding of BalatroStateManager._states_equal: the fixed projection
comparison (session id, phase, ante, money, hands remaining, discards
remaining, hand size, joker count, reorder flag). -/
def states_equal : Option GameState → Option GameState → Bool
  | none, none => true
  | none, some _ => false
  | some _, none => false
  | some s1, some s2 =>
    s1.session_id == s2.session_id
      && s1.current_phase == s2.current_phase
      && s1.ante == s2.ante
      && s1.money == s2.money
      && s1.hands_remaining == s2.hands_remaining
      && s1.discards_remaining == s2.discards_remaining
      && s1.hand_cards.length == s2.hand_cards.length
      && s1.jokers.length == s2.jokers.length
      && s1.post_hand_joker_reorder_available == s2.post_hand_joker_reorder_available

/-- Embedding of BalatroStateManager.update_state.  Takes the current manager
state, the new snapshot and the current time; returns the new manager state
together with the log entries the call emits.  The source logs a single
info-level message when the snapshot is replaced and emits nothing otherwise;
no validator is invoked anywhere on this path. -/
def update_state (m : ManagerState) (new_state : GameState) (now : Nat) :
    ManagerState × List LogEntry :=
  if states_equal m.current_state (some new_state) then
    (m, [])
  else
    ({ current_state := some new_state
       last_update_time := some now
       state_changed := true },
     [⟨.info, "State updated: session_id=" ++ new_state.session_id⟩])

/-- Combined state of a manager together with the game-state file it reads
from: the file content (as an optional parsed envelope) and the last-read
sequence value of the underlying BalatroFileIO. -/
structure SystemState where
  file : Option (Envelope GameState)
  lastRead : Int
  mgr : ManagerState
deriving DecidableEq, Repr

/-- Embedding of BalatroStateManager._update_from_file: read the game state
file and, when a snapshot is returned, feed it to update_state. -/
def update_from_file (sys : SystemState) (now : Nat) : SystemState :=
  match read_game_state sys.file sys.lastRead with
  | (none, lastRead2) => { sys with lastRead := lastRead2 }
  | (some gs, lastRead2) =>
    { sys with lastRead := lastRead2, mgr := (update_state sys.mgr gs now).1 }

/-- Embedding of BalatroStateManager.is_state_changed: pull any pending
update from the file, then read and clear the changed flag. -/
def is_state_changed (sys : SystemState) (now : Nat) : Bool × SystemState :=
  let sys2 := update_from_file sys now
  if sys2.mgr.state_changed then
    (true, { sys2 with mgr := { sys2.mgr with state_changed := false } })
  else
    (false, sys2)

/-- Embedding of StateValidator._validate_session_consistency. -/
def validate_session_consistency (old_state new_state : GameState) : Bool :=
  old_state.session_id == new_state.session_id

/-- Embedding of StateValidator._validate_ante_progression. -/
def validate_ante_progression (old_state new_state : GameState) : Bool :=
  new_state.ante ≥ old_state.ante

/-- Embedding of StateValidator._validate_phase_transition. -/
def validate_phase_transition (_old_state _new_state : GameState) : Bool :=
  true

/-- Embedding of StateValidator.validate_state_transition. -/
def validate_state_transition (old_state : Option GameState) (new_state : GameState) : Bool :=
  match old_state with
  | none => true
  | some o =>
    validate_session_consistency o new_state
      && validate_ante_progression o new_state
      && validate_phase_transition o new_state

/-! ## Action handler (src/server/action_handler.py)

The GameAction pydantic union becomes a closed inductive type; each variant
carries the fields of the corresponding pydantic model, with Python ints as
`Int`. -/

/-- GameAction union from schemas.py. -/
inductive GameAction where
  | play_hand (card_indices : List Int)
  | discard_cards (card_indices : List Int)
  | go_to_shop
  | buy_item (shop_index : Int)
  | sell_joker (joker_index : Int)
  | sell_consumable (consumable_index : Int)
  | reorder_jokers (new_order : List Int)
  | select_blind (blind_type : String)
  | select_pack_offer (pack_index : Int)
  | reroll_boss
  | reroll_shop
  | sort_hand_by_rank
  | sort_hand_by_suit
  | use_consumable (item_id : String)
deriving DecidableEq, Repr

/-- The action_type literal carried by each action model. -/
def GameAction.action_type : GameAction → String
  | .play_hand _ => "play_hand"
  | .discard_cards _ => "discard_cards"
  | .go_to_shop => "go_to_shop"
  | .buy_item _ => "buy_item"
  | .sell_joker _ => "sell_joker"
  | .sell_consumable _ => "sell_consumable"
  | .reorder_jokers _ => "reorder_jokers"
  | .select_blind _ => "select_blind"
  | .select_pack_offer _ => "select_pack_offer"
  | .reroll_boss => "reroll_boss"
  | .reroll_shop => "reroll_shop"
  | .sort_hand_by_rank => "sort_hand_by_rank"
  | .sort_hand_by_suit => "sort_hand_by_suit"
  | .use_consumable _ => "use_consumable"

/-- Embedding of BalatroActionHandler._validate_play_hand. -/
def validate_play_hand (card_indices : List Int) (s : GameState) : Bool :=
  if s.current_phase ≠ GamePhase.hand_selection then false
  else if s.hands_remaining ≤ 0 then false
  else if ¬ (card_indices.all fun idx => 0 ≤ idx ∧ idx < s.hand_cards.length) then false
  else if card_indices.isEmpty then false
  else true

/-- Embedding of BalatroActionHandler._validate_discard_cards. -/
def validate_discard_cards (card_indices : List Int) (s : GameState) : Bool :=
  if s.current_phase ≠ GamePhase.hand_selection then false
  else if s.discards_remaining ≤ 0 then false
  else if ¬ (card_indices.all fun idx => 0 ≤ idx ∧ idx < s.hand_cards.length) then false
  else if card_indices.isEmpty then false
  else true

/-- Embedding of BalatroActionHandler._validate_go_to_shop. -/
def validate_go_to_shop (s : GameState) : Bool :=
  s.current_phase == GamePhase.hand_selection

/-- Embedding of BalatroActionHandler._validate_buy_item. -/
def validate_buy_item (shop_index : Int) (s : GameState) : Bool :=
  if s.current_phase ≠ GamePhase.shop then false
  else if ¬ (0 ≤ shop_index ∧ shop_index < s.shop_contents.length) then false
  else
    match s.shop_contents.get? shop_index.toNat with
    | none => false
    | some item => decide (s.money ≥ item.cost)

/-- Embedding of BalatroActionHandler._validate_sell_joker. -/
def validate_sell_joker (joker_index : Int) (s : GameState) : Bool :=
  if s.current_phase ≠ GamePhase.shop then false
  else decide (0 ≤ joker_index ∧ joker_index < s.jokers.length)

/-- Embedding of BalatroActionHandler._validate_sell_consumable. -/
def validate_sell_consumable (consumable_index : Int) (s : GameState) : Bool :=
  if s.current_phase ≠ GamePhase.shop then false
  else decide (0 ≤ consumable_index ∧ consumable_index < s.consumables.length)

/-- Embedding of BalatroActionHandler._validate_reorder_jokers: the reorder
window flag must be set, the new order must have the joker count as length,
and as a Python set it must equal set(range(joker_count)). -/
def validate_reorder_jokers (new_order : List Int) (s : GameState) : Bool :=
  if ¬ s.post_hand_joker_reorder_available then false
  else if new_order.length ≠ s.jokers.length then false
  else if new_order.toFinset ≠ ((List.range s.jokers.length).map Int.ofNat).toFinset then false
  else true

/-- Embedding of BalatroActionHandler._validate_select_blind. -/
def validate_select_blind (s : GameState) : Bool :=
  s.current_phase == GamePhase.blind_selection

/-- Embedding of BalatroActionHandler._validate_select_pack_offer. -/
def validate_select_pack_offer (_s : GameState) : Bool :=
  true

/-- Embedding of BalatroActionHandler._validate_reroll_boss. -/
def validate_reroll_boss (s : GameState) : Bool :=
  s.current_phase == GamePhase.blind_selection

/-- Embedding of BalatroActionHandler._validate_reroll_shop. -/
def validate_reroll_shop (s : GameState) : Bool :=
  s.current_phase == GamePhase.shop

/-- Embedding of BalatroActionHandler._validate_sort_hand. -/
def validate_sort_hand (s : GameState) : Bool :=
  s.current_phase == GamePhase.hand_selection

/-- Embedding of BalatroActionHandler._validate_use_consumable. -/
def validate_use_consumable (item_id : String) (s : GameState) : Bool :=
  (s.consumables.map Consumable.id).contains item_id

/-- Dispatch table self.action_validators: the specific validator for each
action type (every type in the closed union has an entry). -/
def action_validator : GameAction → GameState → Bool
  | .play_hand idxs => validate_play_hand idxs
  | .discard_cards idxs => validate_discard_cards idxs
  | .go_to_shop => validate_go_to_shop
  | .buy_item i => validate_buy_item i
  | .sell_joker i => validate_sell_joker i
  | .sell_consumable i => validate_sell_consumable i
  | .reorder_jokers ord => validate_reorder_jokers ord
  | .select_blind _ => validate_select_blind
  | .select_pack_offer _ => validate_select_pack_offer
  | .reroll_boss => validate_reroll_boss
  | .reroll_shop => validate_reroll_shop
  | .sort_hand_by_rank => validate_sort_hand
  | .sort_hand_by_suit => validate_sort_hand
  | .use_consumable i => validate_use_consumable i

/-- Embedding of BalatroActionHandler.validate_action: the action type must
appear in the available_actions list of the snapshot, then the specific
validator runs. -/
def validate_action (a : GameAction) (s : GameState) : Bool :=
  if ¬ s.available_actions.contains a.action_type then false
  else action_validator a s

/-! ## execute_action (src/server/action_handler.py)

The dependencies of execute_action (state manager and file IO) are modelled
as the observable behaviour of the three calls the method makes.  A `.error`
value stands for the call raising a Python exception; the outer try/except
of execute_action converts any such exception into an internal-error
ActionResult.  validate_action is pure in the source (its own try/except
never sees an exception from the pure field accesses), so it appears
directly. -/

/-- Behaviour of the dependency calls made by one execute_action run. -/
structure Deps where
  get_current_state : Except String (Option GameState)
  write_action : Except String Bool
  wait_for_action_result : Except String (Option ActionResult)

/-- ActionResult returned when no game state is available. -/
def noStateResult : ActionResult :=
  { success := false, error_message := some "No game state available" }

/-- ActionResult returned on an ActionGate refusal. -/
def validationRejection (a : GameAction) : ActionResult :=
  { success := false
    error_message := some ("Action " ++ a.action_type ++ " is not valid in current state") }

/-- ActionResult returned when the action file write fails. -/
def writeFailedResult : ActionResult :=
  { success := false, error_message := some "Failed to write action to file" }

/-- ActionResult returned when waiting for the peer result times out. -/
def timeoutResult : ActionResult :=
  { success := false, error_message := some "Timeout waiting for action result" }

/-- ActionResult produced by the outer exception handler. -/
def internalErrorResult (e : String) : ActionResult :=
  { success := false, error_message := some ("Internal error: " ++ e) }

/-- Body of BalatroActionHandler.execute_action inside the try block; a
`.error` outcome means an uncaught exception propagates to the outer
handler, cutting the rest of the body short exactly as in the source. -/
def execute_action_body (d : Deps) (a : GameAction) : Except String ActionResult :=
  match d.get_current_state with
  | .error e => .error e
  | .ok none => .ok noStateResult
  | .ok (some st) =>
    if ¬ validate_action a st then .ok (validationRejection a)
    else
      match d.write_action with
      | .error e => .error e
      | .ok false => .ok writeFailedResult
      | .ok true =>
        match d.wait_for_action_result with
        | .error e => .error e
        | .ok none => .ok timeoutResult
        | .ok (some r) => .ok r

/-- Embedding of BalatroActionHandler.execute_action: the body wrapped in
the catch-all exception handler, so the method always returns an
ActionResult. -/
def execute_action (d : Deps) (a : GameAction) : ActionResult :=
  match execute_action_body d a with
  | .ok r => r
  | .error e => internalErrorResult e

/-! ## Base-path validation (src/server/file_io.py)

BalatroFileIO._validate_and_sanitize_path first runs purely string-level
checks (emptiness, the 260-character limit, the BLOCKED_PATTERNS regex
list) and raises ValueError on any hit; only afterwards does it consult the
filesystem (Path construction, resolution against the working directory).
The string-level stage is embedded exactly; the filesystem stage, which no
claim depends on, is abstracted as an oracle that the function calls only
when every string-level check has passed.  The regexes are translated
search-faithfully, including the Python semantics of `$` and of `.`
(neither crosses a newline). -/

/-- Error kinds with which _validate_and_sanitize_path raises ValueError;
the first three come from the string-level stage, the rest from the
filesystem-dependent stage. -/
inductive PathError where
  | emptyPath
  | tooLong
  | blockedPattern
  | invalidFormat
  | traversalParts
  | outsideAllowed
  | resolutionFailed
deriving DecidableEq, Repr

/-- MAX_PATH_LENGTH constant of BalatroFileIO. -/
def MAX_PATH_LENGTH : Nat := 260

/-- Path separator class [\x5c/] used by the blocked patterns. -/
def isSep (c : Char) : Bool :=
  c == '/' || c == '\\'

/-- Check that the pattern list is an initial segment of the character
list. -/
def listStartsWith : List Char → List Char → Bool
  | [], _ => true
  | _ :: _, [] => false
  | p :: ps, c :: cs => p == c && listStartsWith ps cs

/-- Check that the pattern list occurs somewhere inside the character list
(regex search semantics). -/
def listHasSub (pat : List Char) : List Char → Bool
  | [] => listStartsWith pat []
  | c :: cs => listStartsWith pat (c :: cs) || listHasSub pat cs

/-- Check that the pattern list is a final segment of the character list. -/
def listEndsWith (pat cs : List Char) : Bool :=
  listStartsWith pat.reverse cs.reverse

/-- Blocked pattern r"\.\.[\x5c/]": two dots followed by a separator,
anywhere. -/
def matchesDotDotSep (cs : List Char) : Bool :=
  listHasSub ['.', '.', '/'] cs || listHasSub ['.', '.', '\\'] cs

/-- Blocked pattern r"[\x5c/]\.\.[\x5c/]": a separated dot-dot segment in
the middle. -/
def matchesSepDotDotSep (cs : List Char) : Bool :=
  listHasSub ['/', '.', '.', '/'] cs || listHasSub ['/', '.', '.', '\\'] cs
    || listHasSub ['\\', '.', '.', '/'] cs || listHasSub ['\\', '.', '.', '\\'] cs

/-- Dollar-anchor tails in Python re semantics: the end of the string or a
position just before a single trailing newline. -/
def noNewline (cs : List Char) : Bool :=
  cs.all fun c => c ≠ '\n'

/-- Blocked pattern r"[\x5c/]\.\.$": a trailing separated dot-dot.  `$`
also matches just before one final newline. -/
def matchesSepDotDotEnd (cs : List Char) : Bool :=
  listEndsWith ['/', '.', '.'] cs || listEndsWith ['\\', '.', '.'] cs
    || listEndsWith ['/', '.', '.', '\n'] cs || listEndsWith ['\\', '.', '.', '\n'] cs

/-- Blocked pattern r"^\.\.[\x5c/]": a leading dot-dot segment. -/
def matchesDotDotStart (cs : List Char) : Bool :=
  listStartsWith ['.', '.', '/'] cs || listStartsWith ['.', '.', '\\'] cs

/-- Blocked pattern r"^\.\.?$": the whole path is one or two dots, possibly
with one final newline matched by the `$`. -/
def matchesOnlyDots (cs : List Char) : Bool :=
  cs == ['.'] || cs == ['.', '.'] || cs == ['.', '\n'] || cs == ['.', '.', '\n']

/-- Character class [\x00-\x1f\x7f-\x9f] of the control-character
pattern. -/
def isControlChar (c : Char) : Bool :=
  c.val ≤ 0x1f || (0x7f ≤ c.val && c.val ≤ 0x9f)

/-- Blocked pattern for control characters. -/
def matchesControlChar (cs : List Char) : Bool :=
  cs.any isControlChar

/-- Blocked pattern for the Windows-reserved punctuation class
[<>"|?*]. -/
def matchesSpecialChar (cs : List Char) : Bool :=
  cs.any fun c => c ∈ ['<', '>', '"', '|', '?', '*']

/-- Reserved device names of the final blocked pattern. -/
def reservedNames : List String :=
  ["CON", "PRN", "AUX", "NUL",
   "COM1", "COM2", "COM3", "COM4", "COM5", "COM6", "COM7", "COM8", "COM9",
   "LPT1", "LPT2", "LPT3", "LPT4", "LPT5", "LPT6", "LPT7", "LPT8", "LPT9"]

/-- Tail accepted after a reserved name by (?:\..*)?$ in Python re
semantics: nothing, a lone newline, or a dot followed by a newline-free run
optionally closed by one final newline. -/
def reservedTailOk : List Char → Bool
  | [] => true
  | ['\n'] => true
  | '.' :: u =>
    noNewline u
      || (match u.getLast? with
          | some c => c == '\n' && noNewline u.dropLast
          | none => false)
  | _ => false

/-- Check whether a reserved name (case-insensitively) starts at the head
of the list with an accepted tail. -/
def reservedFrom (cs : List Char) : Bool :=
  reservedNames.any fun nm =>
    let csU := cs.map Char.toUpper
    listStartsWith nm.toList csU && reservedTailOk (csU.drop nm.length)

/-- Check whether a reserved name starts right after some separator. -/
def reservedAfterSep : List Char → Bool
  | [] => false
  | c :: rest => (isSep c && reservedFrom rest) || reservedAfterSep rest

/-- Blocked pattern r"(?:^|[\x5c/])(?:CON|PRN|AUX|NUL|COM[1-9]|LPT[1-9])(?:\..*)?$"
with IGNORECASE. -/
def matchesReservedName (cs : List Char) : Bool :=
  reservedFrom cs || reservedAfterSep cs

/-- Disjunction of the BLOCKED_PATTERNS list of BalatroFileIO, in source
order. -/
def blockedPatternMatches (cs : List Char) : Bool :=
  matchesDotDotSep cs
    || matchesSepDotDotSep cs
    || matchesSepDotDotEnd cs
    || matchesDotDotStart cs
    || matchesOnlyDots cs
    || matchesControlChar cs
    || matchesSpecialChar cs
    || matchesReservedName cs

/-- Embedding of BalatroFileIO._validate_and_sanitize_path.  The argument
`fs` is the filesystem-dependent continuation (Path construction, the parts
check and resolution against the working directory); it is consulted only
after the pure string-level checks pass, exactly as in the source, where
every ValueError of the first stage is raised before any Path object is
built. -/
def validate_and_sanitize_path (fs : String → Except PathError String)
    (path : String) : Except PathError String :=
  if path.length = 0 then .error .emptyPath
  else if path.length > MAX_PATH_LENGTH then .error .tooLong
  else if blockedPatternMatches path.toList then .error .blockedPattern
  else fs path

/-! ## Concrete sample values used by witnesses and counterexamples -/

/-- Sample snapshot in the hand-selection phase. -/
def sampleState : GameState :=
  { session_id := "session-1"
    current_phase := GamePhase.hand_selection
    ante := 1
    money := 10
    hands_remaining := 3
    discards_remaining := 2
    hand_cards := [⟨"c1", "A", "Spades", "none", "none", "none"⟩]
    jokers := []
    consumables := []
    current_blind := none
    shop_contents := []
    available_actions := ["play_hand", "go_to_shop"]
    post_hand_joker_reorder_available := false }

/-- Sample snapshot one ante later in the same session. -/
def sampleState2 : GameState :=
  { sampleState with ante := 2 }

/-- Sample snapshot that only changes the session id. -/
def sessionChangedState : GameState :=
  { sampleState with session_id := "session-2" }

/-- Sample snapshot identical to sampleState under the fixed projection but
holding a different card. -/
def cardsChangedState : GameState :=
  { sampleState with hand_cards := [⟨"c9", "K", "Hearts", "none", "none", "none"⟩] }

/-- Sample snapshot with three jokers and the reorder window open. -/
def reorderState : GameState :=
  { sampleState with
      jokers := [⟨"j1", "Blueprint", 0⟩, ⟨"j2", "Brainstorm", 1⟩, ⟨"j3", "Mime", 2⟩]
      available_actions := ["reorder_jokers"]
      post_hand_joker_reorder_available := true }

/-- Sample snapshot in the shop phase with two priced items. -/
def shopState : GameState :=
  { sampleState with
      current_phase := GamePhase.shop
      shop_contents := [⟨0, "joker", "Foo", 4⟩, ⟨1, "pack", "Mega", 15⟩]
      available_actions := ["buy_item"] }

/-- Sample successful action result. -/
def sampleActionResult : ActionResult :=
  { success := true }

/-- Manager state caching sampleState with a cleared flag. -/
def sampleManager : ManagerState :=
  { current_state := some sampleState, last_update_time := some 0, state_changed := false }

/-- Manager state before any snapshot arrived. -/
def emptyManager : ManagerState :=
  { current_state := none, last_update_time := none, state_changed := false }

/-- Dependency behaviour for execute_action where the peer never answers. -/
def depsTimeout : Deps :=
  { get_current_state := .ok (some sampleState)
    write_action := .ok true
    wait_for_action_result := .ok none }

/-- Dependency behaviour where the peer reports a failure whose payload
equals the timeout result. -/
def depsPeerEcho : Deps :=
  { get_current_state := .ok (some sampleState)
    write_action := .ok true
    wait_for_action_result := .ok (some timeoutResult) }

/-- The 300-character path of the path rejection table. -/
def longAPath : String :=
  String.mk (List.replicate 300 'a')

/-! ## Helper lemmas -/

/-- Acceptance inversion for read_game_state: a returned snapshot means the
sequence check and the kind check passed, the payload was present, and the
recorded sequence value is the envelope id. -/
theorem read_game_state_accepts (env : Envelope GameState) (lastRead : Int)
    (gs : GameState) (h : (read_game_state (some env) lastRead).1 = some gs) :
    lastRead < env.sequence_id ∧ env.message_type = MessageType.game_state.value ∧
      env.data = some gs ∧ (read_game_state (some env) lastRead).2 = env.sequence_id := by
  by_cases h1 : env.sequence_id ≤ lastRead
  · simp [read_game_state, h1] at h
  · by_cases h2 : env.message_type = MessageType.game_state.value
    · cases hd : env.data with
      | none => simp [read_game_state, h1, h2, hd] at h
      | some g =>
        have hval : read_game_state (some env) lastRead = (some g, env.sequence_id) := by
          simp [read_game_state, h1, h2, hd]
        rw [hval] at h
        simp only at h
        exact ⟨lt_of_not_le h1, h2, h, by rw [hval]⟩
    · simp [read_game_state, h1, h2] at h

/-- Acceptance inversion for read_action_result. -/
theorem read_action_result_accepts (env : Envelope ActionResult) (lastRead : Int)
    (r : ActionResult) (h : (read_action_result (some env) lastRead).1 = some r) :
    lastRead < env.sequence_id ∧ env.message_type = MessageType.action_result.value ∧
      env.data = some r ∧
      (read_action_result (some env) lastRead).2.1 = env.sequence_id ∧
      (read_action_result (some env) lastRead).2.2 = none := by
  by_cases h1 : env.sequence_id ≤ lastRead
  · simp [read_action_result, h1] at h
  · by_cases h2 : env.message_type = MessageType.action_result.value
    · cases hd : env.data with
      | none => simp [read_action_result, h1, h2, hd] at h
      | some g =>
        have hval : read_action_result (some env) lastRead = (some g, env.sequence_id, none) := by
          simp [read_action_result, h1, h2, hd]
        rw [hval] at h
        simp only at h
        exact ⟨lt_of_not_le h1, h2, h, by rw [hval], by rw [hval]⟩
    · simp [read_action_result, h1, h2] at h

/-- Rereading the game state file without an intervening write returns
nothing and leaves the recorded sequence value fixed. -/
theorem read_game_state_reread (file : Option (Envelope GameState)) (lastRead : Int) :
    read_game_state file ((read_game_state file lastRead).2)
      = (none, (read_game_state file lastRead).2) := by
  cases file with
  | none => rfl
  | some env =>
    by_cases h1 : env.sequence_id ≤ lastRead
    · simp [read_game_state, h1]
    · by_cases h2 : env.message_type = MessageType.game_state.value
      · cases hd : env.data <;> simp [read_game_state, h1, h2, hd]
      · simp [read_game_state, h1, h2]

/-- Acceptance on a fresh, well-kinded, well-formed game state envelope. -/
theorem read_game_state_fresh (env : Envelope GameState) (lastRead : Int)
    (gs : GameState) (hseq : lastRead < env.sequence_id)
    (hkind : env.message_type = MessageType.game_state.value)
    (hdata : env.data = some gs) :
    read_game_state (some env) lastRead = (some gs, env.sequence_id) := by
  simp [read_game_state, not_le.mpr hseq, hkind, hdata]

/-- Acceptance on a fresh, well-kinded, well-formed action result
envelope. -/
theorem read_action_result_fresh (env : Envelope ActionResult) (lastRead : Int)
    (r : ActionResult) (hseq : lastRead < env.sequence_id)
    (hkind : env.message_type = MessageType.action_result.value)
    (hdata : env.data = some r) :
    read_action_result (some env) lastRead = (some r, env.sequence_id, none) := by
  simp [read_action_result, not_le.mpr hseq, hkind, hdata]

/-! ## Claims -/

/-- C1: the claim states that a fresh-sequence envelope of the wrong kind
leaves the last-accepted sequence id unchanged.  The code records the new
sequence id before the kind check, so the claim is false: an envelope with
sequence_id 1 and kind action_result read by read_game_state at last-read 0
returns nothing yet moves the recorded sequence value to 1; symmetrically
for read_action_result. -/
theorem C1_counterexample :
    (read_game_state (some ⟨1, "action_result", some sampleState⟩) 0).1 = none ∧
    (read_game_state (some ⟨1, "action_result", some sampleState⟩) 0).2 = 1 ∧
    ¬ ((read_game_state (some ⟨1, "action_result", some sampleState⟩) 0).2 = 0) ∧
    (read_action_result (some ⟨1, "game_state", some sampleActionResult⟩) 0).1 = none ∧
    (read_action_result (some ⟨1, "game_state", some sampleActionResult⟩) 0).2.1 = 1 := by
  refine ⟨rfl, rfl, by decide, rfl, rfl⟩

/-- C1 amended: for every read whose envelope has a sequence_id strictly
greater than the last-accepted id but whose kind is wrong, the reader
returns nothing but nevertheless records the envelope sequence_id as the
new last-accepted id (recording happens before the kind check); the same
holds for read_action_result, which also keeps the file in place. -/
theorem C1_amended :
    (∀ (env : Envelope GameState) (lastRead : Int),
        lastRead < env.sequence_id →
        env.message_type ≠ MessageType.game_state.value →
        read_game_state (some env) lastRead = (none, env.sequence_id)) ∧
    (∀ (env : Envelope ActionResult) (lastRead : Int),
        lastRead < env.sequence_id →
        env.message_type ≠ MessageType.action_result.value →
        read_action_result (some env) lastRead = (none, env.sequence_id, some env)) := by
  constructor
  · intro env lastRead hseq hkind
    simp [read_game_state, not_le.mpr hseq, hkind]
  · intro env lastRead hseq hkind
    simp [read_action_result, not_le.mpr hseq, hkind]

/-- C1 amended, witness at the concrete counterexample input. -/
theorem C1_amended_witness :
    read_game_state (some ⟨1, "action_result", some sampleState⟩) 0 = (none, 1) ∧
    read_action_result (some ⟨1, "game_state", some sampleActionResult⟩) 0
      = (none, 1, some ⟨1, "game_state", some sampleActionResult⟩) :=
  ⟨C1_amended.1 ⟨1, "action_result", some sampleState⟩ 0 (by decide) (by decide),
   C1_amended.2 ⟨1, "game_state", some sampleActionResult⟩ 0 (by decide) (by decide)⟩

/-- C2: sequence idempotence.  After read_game_state accepts an envelope,
a second read of the same file content returns nothing and keeps the
recorded sequence value; a subsequently written envelope with the successor
sequence_id, the correct kind and a payload is accepted and returned.  For
read_action_result acceptance deletes the file, so the second read sees no
file and returns nothing, and a subsequently written successor envelope is
accepted likewise. -/
theorem C2_sequence_idempotence :
    (∀ (env env2 : Envelope GameState) (lastRead : Int) (gs gs2 : GameState),
        (read_game_state (some env) lastRead).1 = some gs →
        read_game_state (some env) ((read_game_state (some env) lastRead).2)
          = (none, (read_game_state (some env) lastRead).2) ∧
        (env2.sequence_id = env.sequence_id + 1 →
          env2.message_type = MessageType.game_state.value →
          env2.data = some gs2 →
          read_game_state (some env2) ((read_game_state (some env) lastRead).2)
            = (some gs2, env2.sequence_id))) ∧
    (∀ (env env2 : Envelope ActionResult) (lastRead : Int) (r r2 : ActionResult),
        (read_action_result (some env) lastRead).1 = some r →
        (read_action_result (some env) lastRead).2.2 = none ∧
        read_action_result none ((read_action_result (some env) lastRead).2.1)
          = (none, (read_action_result (some env) lastRead).2.1, none) ∧
        (env2.sequence_id = env.sequence_id + 1 →
          env2.message_type = MessageType.action_result.value →
          env2.data = some r2 →
          read_action_result (some env2) ((read_action_result (some env) lastRead).2.1)
            = (some r2, env2.sequence_id, none))) := by
  constructor
  · intro env env2 lastRead gs gs2 hacc
    obtain ⟨_, _, _, hrec⟩ := read_game_state_accepts env lastRead gs hacc
    refine ⟨read_game_state_reread (some env) lastRead, ?_⟩
    intro hs hk hd
    rw [hrec]
    exact read_game_state_fresh env2 env.sequence_id gs2 (by omega) hk hd
  · intro env env2 lastRead r r2 hacc
    obtain ⟨_, _, _, hrec, hdel⟩ := read_action_result_accepts env lastRead r hacc
    refine ⟨hdel, rfl, ?_⟩
    intro hs hk hd
    rw [hrec]
    exact read_action_result_fresh env2 env.sequence_id r2 (by omega) hk hd

/-- C2 witness: acceptance at sequence 1 from last-read 0, followed by a
rejected reread and an accepted successor envelope at sequence 2. -/
theorem C2_sequence_idempotence_witness :
    read_game_state (some ⟨1, "game_state", some sampleState⟩)
        ((read_game_state (some ⟨1, "game_state", some sampleState⟩) 0).2)
      = (none, (read_game_state (some ⟨1, "game_state", some sampleState⟩) 0).2) ∧
    read_game_state (some ⟨2, "game_state", some sampleState2⟩)
        ((read_game_state (some ⟨1, "game_state", some sampleState⟩) 0).2)
      = (some sampleState2, 2) ∧
    read_action_result (some ⟨2, "action_result", some sampleActionResult⟩)
        ((read_action_result (some ⟨1, "action_result", some sampleActionResult⟩) 0).2.1)
      = (some sampleActionResult, 2, none) := by
  have hg := (C2_sequence_idempotence.1 ⟨1, "game_state", some sampleState⟩
    ⟨2, "game_state", some sampleState2⟩ 0 sampleState sampleState2 rfl)
  have hr := (C2_sequence_idempotence.2 ⟨1, "action_result", some sampleActionResult⟩
    ⟨2, "action_result", some sampleActionResult⟩ 0 sampleActionResult sampleActionResult rfl)
  exact ⟨hg.1, hg.2 rfl rfl rfl, hr.2.2 rfl rfl rfl⟩

/-- C3: the claim states that a snapshot changing the session id (or
decreasing the ante) is detected and logged as a warning by the update
path, never silently accepted.  The code never invokes StateValidator from
update_state and logs only an info-level entry, so the claim is false at
this concrete input: a snapshot whose session id differs from the cached
one is accepted (the cache is replaced) and no warning-level entry is
emitted. -/
theorem C3_counterexample :
    sampleState.session_id ≠ sessionChangedState.session_id ∧
    sampleManager.current_state = some sampleState ∧
    (update_state sampleManager sessionChangedState 5).1.current_state
      = some sessionChangedState ∧
    (∀ e ∈ (update_state sampleManager sessionChangedState 5).2,
      e.level ≠ LogLevel.warning) := by
  refine ⟨by decide, rfl, by decide, by decide⟩

/-- C3 amended: the detection logic exists only in the StateValidator
utility, whose validate_state_transition returns false whenever the session
id changes or the ante decreases; the update path never calls it and emits
no warning-level log entry on any input, so such snapshots are silently
accepted. -/
theorem C3_amended :
    (∀ old_state new_state : GameState,
        old_state.session_id ≠ new_state.session_id ∨ new_state.ante < old_state.ante →
        validate_state_transition (some old_state) new_state = false) ∧
    (∀ (m : ManagerState) (new_state : GameState) (now : Nat),
        ∀ e ∈ (update_state m new_state now).2, e.level ≠ LogLevel.warning) := by
  constructor
  · intro o n h
    unfold validate_state_transition validate_session_consistency
      validate_ante_progression validate_phase_transition
    rcases h with h | h
    · simp [beq_eq_false_iff_ne.mpr h]
    · simp [not_le.mpr h]
  · intro m n now e he
    unfold update_state at he
    split at he
    · simp at he
    · simp at he
      subst he
      show LogLevel.info ≠ LogLevel.warning
      decide

/-- C3 amended, witness at the session-change counterexample input. -/
theorem C3_amended_witness :
    validate_state_transition (some sampleState) sessionChangedState = false ∧
    (∀ e ∈ (update_state sampleManager sessionChangedState 5).2,
      e.level ≠ LogLevel.warning) :=
  ⟨C3_amended.1 sampleState sessionChangedState (Or.inl (by decide)),
   C3_amended.2 sampleManager sessionChangedState 5⟩

/-- C4: the claim requires the timeout outcome to be distinguishable from a
peer-reported failure for every behaviour of the dependencies.  Under
depsTimeout the wait times out; under depsPeerEcho the peer reports a
failure whose payload equals the timeout result; execute_action returns the
identical ActionResult in both runs, so the caller cannot distinguish them
and the claim as stated is false. -/
theorem C4_counterexample :
    depsTimeout.wait_for_action_result = Except.ok none ∧
    depsPeerEcho.wait_for_action_result = Except.ok (some timeoutResult) ∧
    timeoutResult.success = false ∧
    execute_action depsTimeout GameAction.go_to_shop = timeoutResult ∧
    execute_action depsPeerEcho GameAction.go_to_shop
      = execute_action depsTimeout GameAction.go_to_shop := by
  refine ⟨rfl, rfl, rfl, by decide, by decide⟩

/-- C4 amended: execute_action always returns an ActionResult — any
exception from a dependency is converted by the outer handler into an
internal-error failure; a gate refusal is surfaced as a typed failure with
success false and a human-readable reason; a timeout is surfaced as the
fixed failure result with the timeout message, which differs from every
validation-rejection result; peer results, however, are returned verbatim,
so a peer-reported failure carrying the same payload is not distinguishable
from a timeout. -/
theorem C4_amended :
    (∀ (d : Deps) (a : GameAction) (e : String),
        execute_action_body d a = Except.error e →
        execute_action d a = internalErrorResult e ∧
          (internalErrorResult e).success = false) ∧
    (∀ (d : Deps) (a : GameAction) (st : GameState),
        d.get_current_state = Except.ok (some st) →
        validate_action a st = false →
        execute_action d a = validationRejection a ∧
          (validationRejection a).success = false ∧
          (validationRejection a).error_message
            = some ("Action " ++ a.action_type ++ " is not valid in current state")) ∧
    (∀ (d : Deps) (a : GameAction) (st : GameState),
        d.get_current_state = Except.ok (some st) →
        validate_action a st = true →
        d.write_action = Except.ok true →
        d.wait_for_action_result = Except.ok none →
        execute_action d a = timeoutResult) ∧
    (∀ a : GameAction, timeoutResult ≠ validationRejection a) := by
  refine ⟨?_, ?_, ?_, ?_⟩
  · intro d a e h
    unfold execute_action
    rw [h]
    exact ⟨rfl, rfl⟩
  · intro d a st hg hv
    refine ⟨?_, rfl, rfl⟩
    unfold execute_action execute_action_body
    rw [hg]
    simp [hv]
  · intro d a st hg hv hw hr
    unfold execute_action execute_action_body
    rw [hg, hw, hr]
    simp [hv]
  · intro a hcontra
    have h1 : timeoutResult.error_message = (validationRejection a).error_message := by
      rw [hcontra]
    simp only [timeoutResult, validationRejection, Option.some.injEq] at h1
    have h2 := congrArg String.length h1
    have e1 : ("Timeout waiting for action result" : String).length = 33 := rfl
    have e2 : ("Action " : String).length = 7 := rfl
    have e3 : (" is not valid in current state" : String).length = 30 := rfl
    rw [String.length_append, String.length_append, e1, e2, e3] at h2
    omega

/-- C4 amended, witness: the timeout dependency behaviour yields exactly
the timeout result. -/
theorem C4_amended_witness :
    execute_action depsTimeout GameAction.go_to_shop = timeoutResult :=
  C4_amended.2.2.1 depsTimeout GameAction.go_to_shop sampleState rfl (by decide) rfl rfl

set_option maxRecDepth 4000 in
/-- C5: each of the five inputs of the path rejection table is rejected at
construction time with a raised ValueError by the string-level stage of
base-path validation, for every behaviour of the filesystem-dependent
continuation: the traversal path, the 300-character path, the reserved
device name, the special-character path and the NUL-containing path. -/
theorem C5_path_rejection :
    ∀ fs : String → Except PathError String,
      validate_and_sanitize_path fs "../../etc/passwd"
        = Except.error PathError.blockedPattern ∧
      validate_and_sanitize_path fs longAPath = Except.error PathError.tooLong ∧
      validate_and_sanitize_path fs "CON" = Except.error PathError.blockedPattern ∧
      validate_and_sanitize_path fs "file<name>.json"
        = Except.error PathError.blockedPattern ∧
      validate_and_sanitize_path fs "shared\x00x"
        = Except.error PathError.blockedPattern := by
  intro fs
  exact ⟨rfl, rfl, rfl, rfl, rfl⟩

/-- C5 witness at the identity filesystem continuation. -/
theorem C5_path_rejection_witness :
    validate_and_sanitize_path (fun s => Except.ok s) "CON"
      = Except.error PathError.blockedPattern :=
  (C5_path_rejection (fun s => Except.ok s)).2.2.1

/-- Helper: condition-level characterization of validate_reorder_jokers. -/
theorem validate_reorder_jokers_iff (ord : List Int) (s : GameState) :
    validate_reorder_jokers ord s = true ↔
      s.post_hand_joker_reorder_available = true ∧
      ord.length = s.jokers.length ∧
      ord.toFinset = ((List.range s.jokers.length).map Int.ofNat).toFinset := by
  unfold validate_reorder_jokers
  by_cases h1 : s.post_hand_joker_reorder_available = true
  · by_cases h2 : ord.length = s.jokers.length
    · by_cases h3 : ord.toFinset = ((List.range s.jokers.length).map Int.ofNat).toFinset
      · simp [h1, h2, h3]
      · simp [h1, h2, h3]
    · simp [h1, h2]
  · simp [h1]

/-- Helper: a list of integers is a permutation of the image of range n
exactly when it has length n and the right element set. -/
theorem perm_range_iff (ord : List Int) (n : Nat) :
    (ord.length = n ∧ ord.toFinset = ((List.range n).map Int.ofNat).toFinset) ↔
      ord.Perm ((List.range n).map Int.ofNat) := by
  constructor
  · rintro ⟨hlen, hset⟩
    have hnodT : ((List.range n).map Int.ofNat).Nodup :=
      (List.nodup_range n).map fun a b hab => Int.ofNat.inj hab
    have hlenT : ((List.range n).map Int.ofNat).length = n := by simp
    have hcard : ord.toFinset.card = n := by
      rw [hset, List.toFinset_card_of_nodup hnodT, hlenT]
    have hded : ord.dedup.length = ord.length := by
      rw [← List.card_toFinset, hcard, hlen]
    have hnod : ord.Nodup := by
      rw [← List.dedup_eq_self]
      exact (List.dedup_sublist ord).eq_of_length hded
    exact List.perm_of_nodup_nodup_toFinset_eq hnod hnodT hset
  · intro hp
    exact ⟨hp.length_eq.trans (by simp), List.toFinset_eq_of_perm _ _ hp⟩

/-- C6: for a snapshot offering reorder_jokers, validate_action admits a
ReorderJokersAction exactly when the reorder-window flag is set, the new
order has the joker count as length, and the new order is a permutation of
the positions 0 to count-1. -/
theorem C6_reorder_permutation :
    ∀ (s : GameState) (new_order : List Int),
      s.available_actions.contains "reorder_jokers" = true →
      (validate_action (GameAction.reorder_jokers new_order) s = true ↔
        s.post_hand_joker_reorder_available = true ∧
        new_order.length = s.jokers.length ∧
        new_order.Perm ((List.range s.jokers.length).map Int.ofNat)) := by
  intro s ord h
  have hmem : "reorder_jokers" ∈ s.available_actions := by simpa using h
  have hdisp : validate_action (GameAction.reorder_jokers ord) s
      = validate_reorder_jokers ord s := by
    simp [validate_action, GameAction.action_type, hmem, action_validator]
  rw [hdisp, validate_reorder_jokers_iff]
  constructor
  · rintro ⟨hflag, hlen, hset⟩
    exact ⟨hflag, hlen, (perm_range_iff ord s.jokers.length).mp ⟨hlen, hset⟩⟩
  · rintro ⟨hflag, hlen, hperm⟩
    exact ⟨hflag, hlen, ((perm_range_iff ord s.jokers.length).mpr hperm).2⟩

/-- C6 witness: against three jokers, [2, 0, 1] is accepted and the
duplicate order [0, 0, 1] is rejected. -/
theorem C6_reorder_permutation_witness :
    validate_action (GameAction.reorder_jokers [2, 0, 1]) reorderState = true ∧
    validate_action (GameAction.reorder_jokers [0, 0, 1]) reorderState = false := by
  constructor
  · exact (C6_reorder_permutation reorderState [2, 0, 1] (by decide)).mpr
      ⟨by decide, by decide, by decide⟩
  · cases hv : validate_action (GameAction.reorder_jokers [0, 0, 1]) reorderState with
    | false => rfl
    | true =>
      obtain ⟨-, -, hperm⟩ :=
        (C6_reorder_permutation reorderState [0, 0, 1] (by decide)).mp hv
      exact absurd hperm (by decide)

/-- Helper: condition-level characterization of validate_buy_item. -/
theorem validate_buy_item_iff (idx : Int) (s : GameState) :
    validate_buy_item idx s = true ↔
      s.current_phase = GamePhase.shop ∧
      0 ≤ idx ∧ idx < (s.shop_contents.length : Int) ∧
      ∃ item, s.shop_contents.get? idx.toNat = some item ∧ item.cost ≤ s.money := by
  unfold validate_buy_item
  by_cases hph : s.current_phase = GamePhase.shop
  · by_cases hrange : 0 ≤ idx ∧ idx < (s.shop_contents.length : Int)
    · cases hget : s.shop_contents.get? idx.toNat with
      | none => simp [hph, hrange, hget]
      | some item => simp [hph, hrange, hget, ge_iff_le]
    · simp [hph, hrange]
      exact fun h0 hlt => (hrange ⟨h0, hlt⟩).elim
  · simp [hph]

/-- C7: validate_action admits a BuyItemAction exactly when buy_item is
among the available actions, the phase is Shop, the shop index is in range
and the money covers the cost of the indexed item; and for every action
type, absence from available_actions is an immediate rejection. -/
theorem C7_buy_item_validation :
    (∀ (s : GameState) (shop_index : Int),
        validate_action (GameAction.buy_item shop_index) s = true ↔
          s.available_actions.contains "buy_item" = true ∧
          s.current_phase = GamePhase.shop ∧
          0 ≤ shop_index ∧ shop_index < (s.shop_contents.length : Int) ∧
          ∃ item, s.shop_contents.get? shop_index.toNat = some item ∧
            item.cost ≤ s.money) ∧
    (∀ (a : GameAction) (s : GameState),
        s.available_actions.contains a.action_type = false →
        validate_action a s = false) := by
  constructor
  · intro s idx
    cases hav : s.available_actions.contains "buy_item" with
    | true =>
      have hmem : "buy_item" ∈ s.available_actions := by simpa using hav
      have hdisp : validate_action (GameAction.buy_item idx) s = validate_buy_item idx s := by
        simp [validate_action, GameAction.action_type, hmem, action_validator]
      rw [hdisp, validate_buy_item_iff]
      simp [hav]
    | false =>
      have hmem : "buy_item" ∉ s.available_actions := by simpa using hav
      have hlhs : validate_action (GameAction.buy_item idx) s = false := by
        simp [validate_action, GameAction.action_type, hmem]
      simp [hlhs, hav]
  · intro a s hav
    have hmem : a.action_type ∉ s.available_actions := by simpa using hav
    simp [validate_action, hmem]

/-- C7 witness: in the shop snapshot the affordable item at index 0 is
admitted, and the same action against a snapshot not offering buy_item is
rejected. -/
theorem C7_buy_item_validation_witness :
    validate_action (GameAction.buy_item 0) shopState = true ∧
    validate_action (GameAction.buy_item 0) sampleState = false :=
  ⟨(C7_buy_item_validation.1 shopState 0).mpr
      ⟨by decide, rfl, by decide, by decide, ⟨0, "joker", "Foo", 4⟩, rfl, by decide⟩,
   C7_buy_item_validation.2 (GameAction.buy_item 0) sampleState (by decide)⟩

/-- Helper: update_state never clears the changed flag. -/
theorem update_state_flag_mono (m : ManagerState) (gs : GameState) (now : Nat)
    (h : m.state_changed = true) : (update_state m gs now).1.state_changed = true := by
  unfold update_state
  split
  · exact h
  · rfl

/-- Helper: update_from_file does not touch the file content. -/
theorem update_from_file_file (sys : SystemState) (now : Nat) :
    (update_from_file sys now).file = sys.file := by
  unfold update_from_file
  split <;> rfl

/-- Helper: update_from_file stores the sequence value returned by the
read. -/
theorem update_from_file_lastRead (sys : SystemState) (now : Nat) :
    (update_from_file sys now).lastRead = (read_game_state sys.file sys.lastRead).2 := by
  unfold update_from_file
  split <;> rename_i heq <;> rw [heq]

/-- Helper: update_from_file never clears the changed flag. -/
theorem update_from_file_flag_mono (sys : SystemState) (now : Nat)
    (h : sys.mgr.state_changed = true) :
    (update_from_file sys now).mgr.state_changed = true := by
  unfold update_from_file
  split
  · exact h
  · exact update_state_flag_mono _ _ _ h

/-- Helper: a pending changed flag makes is_state_changed return true. -/
theorem is_state_changed_true_of_flag (sys : SystemState) (now : Nat)
    (h : sys.mgr.state_changed = true) : (is_state_changed sys now).1 = true := by
  unfold is_state_changed
  simp [update_from_file_flag_mono sys now h]

/-- Helper: after a call of is_state_changed the changed flag is clear. -/
theorem is_state_changed_flag_cleared (sys : SystemState) (now : Nat) :
    (is_state_changed sys now).2.mgr.state_changed = false := by
  unfold is_state_changed
  cases hf : (update_from_file sys now).mgr.state_changed with
  | true => simp [hf]
  | false => simp [hf]

/-- Helper: is_state_changed does not touch the file content. -/
theorem is_state_changed_file (sys : SystemState) (now : Nat) :
    (is_state_changed sys now).2.file = sys.file := by
  unfold is_state_changed
  cases hf : (update_from_file sys now).mgr.state_changed with
  | true => simp [hf, update_from_file_file]
  | false => simp [hf, update_from_file_file]

/-- Helper: is_state_changed stores the sequence value of its read. -/
theorem is_state_changed_lastRead (sys : SystemState) (now : Nat) :
    (is_state_changed sys now).2.lastRead = (read_game_state sys.file sys.lastRead).2 := by
  unfold is_state_changed
  cases hf : (update_from_file sys now).mgr.state_changed with
  | true => simp [hf, update_from_file_lastRead]
  | false => simp [hf, update_from_file_lastRead]

/-- Helper: with the file content unchanged, the call right after an
is_state_changed call always returns false. -/
theorem is_state_changed_second (sys : SystemState) (now1 now2 : Nat) :
    (is_state_changed (is_state_changed sys now1).2 now2).1 = false := by
  have hread : read_game_state (is_state_changed sys now1).2.file
      (is_state_changed sys now1).2.lastRead = (none, (is_state_changed sys now1).2.lastRead) := by
    rw [is_state_changed_file, is_state_changed_lastRead]
    exact read_game_state_reread sys.file sys.lastRead
  have hclear := is_state_changed_flag_cleared sys now1
  generalize hs : (is_state_changed sys now1).2 = sys1 at hread hclear ⊢
  have huff : update_from_file sys1 now2 = { sys1 with lastRead := sys1.lastRead } := by
    unfold update_from_file
    rw [hread]
  unfold is_state_changed
  rw [huff]
  simp [hclear]

/-- C8: after an update_state call that changes the fixed projection sets
the changed flag, the next is_state_changed call returns true, and with no
new state file data in between the immediately following call returns
false — one true result per underlying change. -/
theorem C8_change_flag_one_shot :
    ∀ (m : ManagerState) (gs : GameState) (now0 : Nat)
      (file : Option (Envelope GameState)) (lastRead : Int) (now1 now2 : Nat),
      states_equal m.current_state (some gs) = false →
      (is_state_changed ⟨file, lastRead, (update_state m gs now0).1⟩ now1).1 = true ∧
      (is_state_changed
          (is_state_changed ⟨file, lastRead, (update_state m gs now0).1⟩ now1).2 now2).1
        = false := by
  intro m gs now0 file lastRead now1 now2 hneq
  have hflag : (update_state m gs now0).1.state_changed = true := by
    simp [update_state, hneq]
  exact ⟨is_state_changed_true_of_flag _ now1 hflag,
    is_state_changed_second _ now1 now2⟩

/-- C8 witness: a first snapshot arriving at an empty manager sets the
flag; polling yields true then false. -/
theorem C8_change_flag_one_shot_witness :
    (is_state_changed ⟨none, 0, (update_state emptyManager sampleState 1).1⟩ 2).1 = true ∧
    (is_state_changed
        (is_state_changed ⟨none, 0, (update_state emptyManager sampleState 1).1⟩ 2).2 3).1
      = false :=
  C8_change_flag_one_shot emptyManager sampleState 1 none 0 2 3 (by decide)

/-- C9: a new snapshot equal to the cached one under the fixed projection
triggers no replacement, no timestamp update, no flag change and no log
output — update_state is the identity on the manager state. -/
theorem C9_projection_noop_frame :
    ∀ (m : ManagerState) (cur ns : GameState) (now : Nat),
      m.current_state = some cur →
      cur.session_id = ns.session_id →
      cur.current_phase = ns.current_phase →
      cur.ante = ns.ante →
      cur.money = ns.money →
      cur.hands_remaining = ns.hands_remaining →
      cur.discards_remaining = ns.discards_remaining →
      cur.hand_cards.length = ns.hand_cards.length →
      cur.jokers.length = ns.jokers.length →
      cur.post_hand_joker_reorder_available = ns.post_hand_joker_reorder_available →
      update_state m ns now = (m, []) := by
  intro m cur ns now hm h1 h2 h3 h4 h5 h6 h7 h8 h9
  have heq : states_equal m.current_state (some ns) = true := by
    rw [hm]
    simp [states_equal, h1, h2, h3, h4, h5, h6, h7, h8, h9]
  simp [update_state, heq]

/-- C9 witness: a snapshot differing from the cached one only in the
identity of a card leaves the manager untouched. -/
theorem C9_projection_noop_frame_witness :
    update_state sampleManager cardsChangedState 9 = (sampleManager, []) :=
  C9_projection_noop_frame sampleManager sampleState cardsChangedState 9
    rfl rfl rfl rfl rfl rfl rfl rfl rfl rfl

/-- C10: with no cached snapshot, any snapshot is accepted — a None state
is never projection-equal to a snapshot, so update_state replaces the
cache, records the time and sets the flag, and the next is_state_changed
call reports the change. -/
theorem C10_first_snapshot :
    ∀ (m : ManagerState) (gs : GameState) (now : Nat),
      m.current_state = none →
      states_equal none (some gs) = false ∧
      (update_state m gs now).1
        = { current_state := some gs, last_update_time := some now, state_changed := true } ∧
      (∀ (file : Option (Envelope GameState)) (lastRead : Int) (now2 : Nat),
        (is_state_changed ⟨file, lastRead, (update_state m gs now).1⟩ now2).1 = true) := by
  intro m gs now hm
  have hneq : states_equal m.current_state (some gs) = false := by
    rw [hm]
    rfl
  have hupd : (update_state m gs now).1
      = { current_state := some gs, last_update_time := some now, state_changed := true } := by
    simp [update_state, hneq]
  refine ⟨rfl, hupd, ?_⟩
  intro file lastRead now2
  apply is_state_changed_true_of_flag
  rw [hupd]

/-- C10 witness at the empty manager. -/
theorem C10_first_snapshot_witness :
    (update_state emptyManager sampleState 3).1
      = { current_state := some sampleState, last_update_time := some 3,
          state_changed := true } ∧
    (is_state_changed ⟨none, 0, (update_state emptyManager sampleState 3).1⟩ 4).1 = true :=
  ⟨(C10_first_snapshot emptyManager sampleState 3 rfl).2.1,
   (C10_first_snapshot emptyManager sampleState 3 rfl).2.2 none 0 4⟩

end BalatroMCP
